import Mathlib

/-!
Verification development for the rust-xpath repository (XPath 1.0 engine).

The Lean definitions below are shallow embeddings of the Rust source:
 - `src/parser.rs`   — the tokenizer (`Tokenizer`, `next_token`, the `parse_*` helpers);
 - `src/tokens.rs`   — the token data model (`ExprToken`, `AxisName`, `NodeType`, `Operator`);
 - `src/factory.rs`  — abbreviation expansion while draining the lexer, and the
   result iterator `ProduceIter`;
 - `src/value.rs`    — the `Value` model, coercions, and `Node` equality;
 - `src/functions.rs`— the function library (`Contains`, `ToString`);
 - `src/expressions.rs` — `Path` / `Step` / `Predicate` evaluation.

Rust `f64` numbers are modelled as `XNum` (a rational plus an explicit NaN);
strings are `List Char`; fallible Rust code returns `Except Error`;
a Rust panic is modelled by an outer `Option` (`none` = panic).
-/

namespace RustXpath

/-- `ValueError` from src/result.rs. -/
inductive ValueError where
  | boolean
  | number
  | string
  | nodeset
deriving DecidableEq, Repr

/-- `Error` from src/result.rs (the `Io` payload is dropped: no IO is modelled). -/
inductive Error where
  | io
  | token
  | inputEmpty
  | trailingSlash
  | invalidValue (v : ValueError)
  | cannotConvertNodeToValue
  | nodeDidNotContainText
  | unableToEvaluate
  | invalidXpath
  | missingFuncArgument
  | unableToFindValue
deriving DecidableEq, Repr

/-- `AxisName` from src/tokens.rs. -/
inductive AxisName where
  | ancestor
  | ancestorOrSelf
  | attribute
  | child
  | descendant
  | descendantOrSelf
  | following
  | followingSibling
  | namespaceAxis
  | parent
  | preceding
  | precedingSibling
  | selfAxis
deriving DecidableEq, Repr

/-- `NodeType` from src/tokens.rs. -/
inductive NodeType where
  | comment
  | text
  | processingInstruction (target : Option (List Char))
  | node
deriving DecidableEq, Repr

/-- `Operator` from src/tokens.rs. -/
inductive Operator where
  | opAnd
  | opOr
  | opMod
  | opDiv
  | star
  | forwardSlash
  | doubleForwardSlash
  | pipe
  | plus
  | minus
  | equal
  | doesNotEqual
  | lessThan
  | lessThanOrEqual
  | greaterThan
  | greaterThanOrEqual
deriving DecidableEq, Repr

/-- `NameTest` from src/nodetest.rs (`prefix` is a Lean keyword, hence `prefixName`). -/
structure NameTest where
  prefixName : Option (List Char)
  local_part : List Char
deriving DecidableEq, Repr

/-- `ExprToken` from src/tokens.rs.  Numbers are modelled as rationals: every
token produced by `parse_numbers` is a finite decimal. -/
inductive ExprToken where
  | leftParen
  | rightParen
  | leftBracket
  | rightBracket
  | period
  | parentNode
  | atSign
  | comma
  | locationStep
  | axis (a : AxisName)
  | number (n : ℚ)
  | literal (s : List Char)
  | nameTest (t : NameTest)
  | nodeType (t : NodeType)
  | operator (o : Operator)
  | functionName (s : List Char)
  | variableReference (s : List Char)
deriving DecidableEq, Repr

/-- The double-quote character (written via its code point to keep sources plain). -/
def dquote : Char := Char.ofNat 34

/-- The single-quote character. -/
def squote : Char := Char.ofNat 39

/-- `SINGLE_CHAR_TOKENS` from src/parser.rs. -/
def SINGLE_CHAR_TOKENS : List (List Char × ExprToken) :=
  [ ("/".data, .operator .forwardSlash)
  , ("(".data, .leftParen)
  , (")".data, .rightParen)
  , ("[".data, .leftBracket)
  , ("]".data, .rightBracket)
  , ("@".data, .atSign)
  , ("+".data, .operator .plus)
  , ("-".data, .operator .minus)
  , ("|".data, .operator .pipe)
  , ("=".data, .operator .equal)
  , ("<".data, .operator .lessThan)
  , (">".data, .operator .greaterThan)
  , (",".data, .comma) ]

/-- `DOUBLE_CHAR_TOKENS` from src/parser.rs. -/
def DOUBLE_CHAR_TOKENS : List (List Char × ExprToken) :=
  [ ("<=".data, .operator .lessThanOrEqual)
  , (">=".data, .operator .greaterThanOrEqual)
  , ("!=".data, .operator .doesNotEqual)
  , ("//".data, .operator .doubleForwardSlash)
  , ("..".data, .parentNode) ]

/-- `NAMED_OPERATORS` from src/parser.rs. -/
def NAMED_OPERATORS : List (List Char × ExprToken) :=
  [ ("and".data, .operator .opAnd)
  , ("or".data, .operator .opOr)
  , ("*".data, .operator .star) ]

/-- `AXES` from src/parser.rs (source order matters for prefix matching). -/
def AXES : List (List Char × ExprToken) :=
  [ ("ancestor-or-self".data, .axis .ancestorOrSelf)
  , ("ancestor".data, .axis .ancestor)
  , ("attribute".data, .axis .attribute)
  , ("child".data, .axis .child)
  , ("descendant-or-self".data, .axis .descendantOrSelf)
  , ("descendant".data, .axis .descendant)
  , ("following-sibling".data, .axis .followingSibling)
  , ("following".data, .axis .following)
  , ("namespace".data, .axis .namespaceAxis)
  , ("parent".data, .axis .parent)
  , ("preceding-sibling".data, .axis .precedingSibling)
  , ("preceding".data, .axis .preceding)
  , ("self".data, .axis .selfAxis) ]

/-- `NODE_TYPES` from src/parser.rs. -/
def NODE_TYPES : List (List Char × NodeType) :=
  [ ("comment".data, .comment)
  , ("text".data, .text)
  , ("processing-instruction".data, .processingInstruction none)
  , ("node".data, .node) ]

/-- `Tokenizer::parse_token_array` from src/parser.rs: first table entry whose
name is a prefix of the remaining input wins. -/
def parse_token_array {α : Type} (rem : List Char) :
    List (List Char × α) → Option (Nat × α)
  | [] => none
  | (name, id) :: rest =>
      if rem.length < name.length then parse_token_array rem rest
      else if rem.take name.length = name then some (name.length, id)
      else parse_token_array rem rest

/-- `Tokenizer::parse_literal` from src/parser.rs.  `end_pos` is one past the
scan for the closing quote, exactly as in the source (note the
`end_pos - 1 != 1` guard, which rejects an empty literal). -/
def parse_literal (rem : List Char) : Option (Nat × ExprToken) :=
  match rem with
  | [] => none
  | c :: rest =>
      if c = dquote ∨ c = squote then
        let quote_type := if c = dquote then dquote else squote
        let end_pos := 1 + (rest.takeWhile (fun ch => ch ≠ quote_type)).length
        let end_pos := end_pos + 1
        if rem.length ≥ end_pos ∧ end_pos - 1 ≠ 1 ∧
            rem.get? (end_pos - 1) = some quote_type then
          some (end_pos, .literal ((rem.drop 1).take (end_pos - 2)))
        else
          none
      else none

/-- The `numbers` byte table inside `Tokenizer::parse_numbers`. -/
def numberChars : List Char := "0123456789.".data

/-- The scanning loop of `Tokenizer::parse_numbers`: returns the consumed
length and whether a decimal point was used; `none` on a second decimal
point (the source bails out of the whole parse there). -/
def count_number_len : List Char → Bool → Option (Nat × Bool)
  | [], used => some (0, used)
  | c :: rest, used =>
      if numberChars.contains c then
        if c = '.' then
          if used then none
          else (count_number_len rest true).map (fun p => (p.1 + 1, p.2))
        else (count_number_len rest used).map (fun p => (p.1 + 1, p.2))
      else some (0, used)

/-- Digit-string to natural number (helper for the `str::parse` call). -/
def digitsToNat (l : List Char) : Nat :=
  l.foldl (fun acc c => acc * 10 + (c.toNat - 48)) 0

/-- The `rem_path[0..end_pos].parse()` call in `parse_numbers`: a decimal
string (digits, at most one point) as a rational. -/
def parse_decimal (l : List Char) : ℚ :=
  let intPart := l.takeWhile (fun c => c ≠ '.')
  let fracPart := (l.dropWhile (fun c => c ≠ '.')).drop 1
  (digitsToNat intPart : ℚ) + (digitsToNat fracPart : ℚ) / ((10 : ℚ) ^ fracPart.length)

/-- `Tokenizer::parse_numbers` from src/parser.rs. -/
def parse_numbers (rem : List Char) : Option (Nat × ExprToken) :=
  match rem with
  | [] => none
  | c :: _ =>
      if numberChars.contains c then
        match count_number_len rem false with
        | none => none
        | some (end_pos, used_decimal) =>
            if used_decimal ∧ end_pos = 1 then none
            else some (end_pos, .number (parse_decimal (rem.take end_pos)))
      else none

/-- `Tokenizer::parse_current_node` from src/parser.rs. -/
def parse_current_node (rem : List Char) : Option (Nat × ExprToken) :=
  if rem.take 1 = ['.'] then some (1, .period) else none

/-- `Tokenizer::parse_axes` from src/parser.rs: an axis name must be followed
by `::`. -/
def parse_axes (rem : List Char) : Option (Nat × ExprToken) :=
  match parse_token_array rem AXES with
  | some (len, tok) =>
      if rem.length ≥ len + 2 ∧ (rem.drop len).take 2 = [':', ':'] then
        some (len + 2, tok)
      else none
  | none => none

/-- `Tokenizer::find_function_parenth` from src/parser.rs. -/
def find_function_parenth (rem : List Char) : Option (Nat × Option (List Char)) :=
  if rem.length ≥ 2 ∧ rem.take 1 = ['('] then
    let inner_size := (rem.takeWhile (fun c => c ≠ ')')).length + 1
    if rem.length ≥ inner_size then
      some (inner_size,
        if inner_size = 2 then none else some ((rem.drop 1).take (inner_size - 2)))
    else none
  else none

/-- `Tokenizer::parse_node_types` from src/parser.rs. -/
def parse_node_types (rem : List Char) : Option (Nat × ExprToken) :=
  match parse_token_array rem NODE_TYPES with
  | some (last_pos, results) =>
      match find_function_parenth (rem.drop last_pos) with
      | some (size, inner_str) =>
          let node_type :=
            match results with
            | .processingInstruction _ => NodeType.processingInstruction inner_str
            | other => other
          some (last_pos + size, .nodeType node_type)
      | none => some (last_pos, .nodeType results)
  | none => none

/-- Character class of the regex `[a-zA-Z0-9:_]` in `parse_function_call`. -/
def is_fn_char (c : Char) : Bool := c.isAlphanum || c = ':' || c = '_'

/-- Character class of the regex `[a-zA-Z0-9_]` in `parse_name_test`. -/
def is_nc_char (c : Char) : Bool := c.isAlphanum || c = '_'

/-- `Tokenizer::parse_function_call` from src/parser.rs: a name matched by
`^[a-zA-Z0-9:_]+` that is followed by a parenthesis group. -/
def parse_function_call (rem : List Char) : Option (Nat × ExprToken) :=
  let found := rem.takeWhile is_fn_char
  if found ≠ [] ∧ (find_function_parenth (rem.drop found.length)).isSome then
    some (found.length, .functionName found)
  else none

/-- `Tokenizer::parse_variable_ref` from src/parser.rs: regex `^\$[a-zA-Z0-9:_]+`. -/
def parse_variable_ref (rem : List Char) : Option (Nat × ExprToken) :=
  match rem with
  | '$' :: rest =>
      let found := rest.takeWhile is_fn_char
      if found ≠ [] then some (found.length + 1, .variableReference found) else none
  | _ => none

/-- `Tokenizer::parse_name_test` from src/parser.rs (`*` | `NCName:*` |
`Prefix:LocalPart` | `LocalPart`, via the source's two regexes and `split(':')`). -/
def parse_name_test (rem : List Char) : Option (Nat × ExprToken) :=
  match rem with
  | '*' :: _ => some (1, .nameTest ⟨none, "*".data⟩)
  | _ =>
      let nc := rem.takeWhile is_nc_char
      if nc = [] then none
      else if (rem.drop nc.length).take 2 = [':', '*'] then
        some (nc.length + 2, .nameTest ⟨some nc, "*".data⟩)
      else if (rem.drop nc.length).take 1 = [':'] then
        let nc2 := (rem.drop (nc.length + 1)).takeWhile is_nc_char
        some (nc.length + 1 + nc2.length, .nameTest ⟨some nc, nc2⟩)
      else
        some (nc.length, .nameTest ⟨none, nc⟩)

/-- The leading-whitespace loop at the top of `Tokenizer::next_token`, walking
the input from position `pos`: `while bytes[self.pos] == b' ' { self.pos += 1 }`.
The source indexes the byte slice without a bounds check, so running off the
end is a panic; that panic is modelled by `none`. -/
def skip_spaces_rem : List Char → Nat → Option Nat
  | [], _ => none
  | c :: rest, pos => if c = ' ' then skip_spaces_rem rest (pos + 1) else some pos

/-- The whitespace loop started at index `pos` of `xpath`. -/
def skip_spaces (xpath : List Char) (pos : Nat) : Option Nat :=
  skip_spaces_rem (xpath.drop pos) pos

/-- The `or_else` chain inside `Tokenizer::next_token`, in source order. -/
def next_token_found (rem : List Char) : Option (Nat × ExprToken) :=
  (parse_token_array rem DOUBLE_CHAR_TOKENS).orElse (fun _ =>
  (parse_token_array rem SINGLE_CHAR_TOKENS).orElse (fun _ =>
  (parse_literal rem).orElse (fun _ =>
  (parse_numbers rem).orElse (fun _ =>
  (parse_current_node rem).orElse (fun _ =>
  (parse_token_array rem NAMED_OPERATORS).orElse (fun _ =>
  (parse_axes rem).orElse (fun _ =>
  (parse_node_types rem).orElse (fun _ =>
  (parse_function_call rem).orElse (fun _ =>
  (parse_variable_ref rem).orElse (fun _ =>
  parse_name_test rem))))))))))

/-- `Tokenizer` from src/parser.rs (the `xpath` string plus the cursor). -/
structure Tokenizer where
  xpath : List Char
  pos : Nat
deriving DecidableEq, Repr

/-- `Tokenizer::is_finished`. -/
def Tokenizer.is_finished (t : Tokenizer) : Bool := t.xpath.length ≤ t.pos

/-- `Tokenizer::next_token` from src/parser.rs.  The outer `Option` is the
panic channel: `none` means the whitespace loop indexed out of bounds.
On success the token (or `Error::Token`) is returned with the updated state. -/
def Tokenizer.next_token (t : Tokenizer) : Option (Except Error ExprToken × Tokenizer) :=
  match skip_spaces t.xpath t.pos with
  | none => none
  | some pos =>
      match next_token_found (t.xpath.drop pos) with
      | some (inc, token) => some (.ok token, ⟨t.xpath, pos + inc⟩)
      | none => some (.error .token, ⟨t.xpath, t.xpath.length⟩)

/-- `Iterator::next` for `Tokenizer` (src/parser.rs): `None` when finished,
otherwise `Some(next_token())`.  The outer `Option` is again the panic channel. -/
def Tokenizer.iter_next (t : Tokenizer) :
    Option (Option (Except Error ExprToken × Tokenizer)) :=
  if t.is_finished then some none
  else match t.next_token with
       | none => none
       | some r => some (some r)

/-- `Factory::expand_abbreviation` from src/factory.rs: push the expansion of
one lexer token onto the parser's token buffer `token_steps`. -/
def expand_abbreviation (token_steps : List ExprToken) (token : ExprToken) :
    List ExprToken :=
  match token with
  | .atSign => token_steps ++ [.axis .attribute]
  | .operator .doubleForwardSlash =>
      token_steps ++ [.operator .forwardSlash, .axis .descendantOrSelf,
                      .nodeType .node, .operator .forwardSlash]
  | .period => token_steps ++ [.axis .selfAxis, .nodeType .node]
  | .parentNode => token_steps ++ [.axis .parent, .nodeType .node]
  | t => token_steps ++ [t]

/-- The buffer built by `Factory::tokenize` when the lexer yields exactly the
token list `tokens` (each drained token goes through `expand_abbreviation`). -/
def drain_tokens (tokens : List ExprToken) : List ExprToken :=
  tokens.foldl expand_abbreviation []

/-! ### The value model (src/value.rs) -/

/-- A Rust `f64` as used by the engine: a rational, or NaN.  (The engine only
ever produces finite values or NaN; infinities are not reachable from the
modelled operations.) -/
inductive XNum where
  | nan
  | num (q : ℚ)
deriving DecidableEq, Repr

/-- `f64` addition on the model: NaN propagates. -/
def XNum.add : XNum → XNum → XNum
  | .num a, .num b => .num (a + b)
  | _, _ => .nan

/-- The Rust saturating cast `v as usize` on the model: NaN and negatives go
to 0, otherwise truncation toward zero (positions are unbounded naturals in
the model, so the `usize::MAX` clamp has no counterpart). -/
def XNum.as_usize : XNum → Nat
  | .nan => 0
  | .num q => (⌊q⌋).toNat

/-- Identity of a DOM entry.  Each strong/weak handle in the source points at
one reference-counted DOM node; two handles are `ptr_eq` exactly when they
hold the same number here.  A root handle is identified by its document. -/
structure AttrEntry where
  parentPtr : Nat
  attrName : List Char
  attrValue : List Char
deriving DecidableEq, Repr

/-- `Node` from src/value.rs: a tagged reference into the DOM.  `root` keeps a
strong handle on a document; all other variants hold a weak handle (modelled
by the pointed-to entry's identity); an attribute holds its parent element's
weak handle plus the attribute data. -/
inductive RNode where
  | root (docId : Nat)
  | docType (ptr : Nat)
  | element (ptr : Nat)
  | attributeNode (a : AttrEntry)
  | text (ptr : Nat)
  | comment (ptr : Nat)
  | processingInstruction (ptr : Nat)
  | namespaceNode (ptr : Nat)
deriving DecidableEq, Repr

/-- `Node::is_root` from src/value.rs. -/
def RNode.is_root : RNode → Bool
  | .root _ => true
  | _ => false

/-- `Node::inner_weak` from src/value.rs: the weak handle underlying the
reference — `None` for `Root`, and for an `Attribute` the handle of its
parent element. -/
def RNode.inner_weak : RNode → Option Nat
  | .root _ => none
  | .docType p => some p
  | .element p => some p
  | .attributeNode a => some a.parentPtr
  | .text p => some p
  | .comment p => some p
  | .processingInstruction p => some p
  | .namespaceNode p => some p

/-- `impl PartialEq for Node` from src/value.rs: roots compare by the
`is_root` flag alone, everything else by pointer equality of `inner_weak`. -/
def node_eq (a b : RNode) : Bool :=
  if a.is_root || b.is_root then a.is_root == b.is_root
  else match a.inner_weak, b.inner_weak with
       | some l, some r => l == r
       | _, _ => false

/-- `Value` from src/value.rs: the four XPath value kinds. -/
inductive Value where
  | boolean (b : Bool)
  | number (n : XNum)
  | string (s : List Char)
  | node (n : RNode)
deriving DecidableEq, Repr

/-- `Value::is_something` from src/value.rs. -/
def Value.is_something : Value → Bool
  | .boolean v => v
  | .number v => !(v == .nan)
  | .string v => !v.isEmpty
  | .node _ => true

/-- `Value::boolean` from src/value.rs: the strict Boolean accessor (`0`/`1`
numbers coerce, everything else is a `ValueError::Boolean`). -/
def Value.booleanValue : Value → Except Error Bool
  | .boolean v => .ok v
  | .number (.num q) =>
      if q = 0 then .ok false
      else if q = 1 then .ok true
      else .error (.invalidValue .boolean)
  | _ => .error (.invalidValue .boolean)

/-- `Value::number` from src/value.rs. -/
def Value.numberValue : Value → Except Error XNum
  | .boolean v => .ok (.num (if v then 1 else 0))
  | .number v => .ok v
  | _ => .error (.invalidValue .number)

/-- Decimal rendering standing in for Rust's `f64::to_string` (helper for
`convert_to_string`; fuel-bounded long division for the fractional part; no
theorem in this file depends on its digits). -/
def num_to_string : XNum → List Char
  | .nan => "NaN".data
  | .num q =>
      let sign : List Char := if q < 0 then "-".data else []
      let q := |q|
      let ip := (Nat.toDigits 10 (⌊q⌋).toNat)
      let rec fracDigits : Nat → ℚ → List Char
        | 0, _ => []
        | n + 1, r =>
            if r = 0 then []
            else
              let r10 := r * 10
              (Nat.toDigits 10 (⌊r10⌋).toNat) ++ fracDigits n (r10 - ⌊r10⌋)
      let fp := fracDigits 40 (q - ⌊q⌋)
      sign ++ ip ++ (if fp = [] then [] else '.' :: fp)

/-- `Value::convert_to_string` from src/value.rs.  Note the `Boolean` arm:
`Value::Boolean(_) => String::new()`.  A `Node` value defers to the node's
string-value, which can fail; the node lookup itself is not modelled here,
so the `Node` arm carries the same error the source can produce. -/
def convert_to_string : Value → Except Error (List Char)
  | .boolean _ => .ok []
  | .number v => .ok (num_to_string v)
  | .string v => .ok v
  | .node _ => .error .cannotConvertNodeToValue

/-- The `string()` library function `ToString` from src/functions.rs
(lines 147-158), applied to the value its argument evaluated to:
`Boolean(val) => val.to_string()` gives "true"/"false". -/
def to_string_function (v : Value) : Except Error (List Char) :=
  .ok (match v with
       | .boolean b => if b then "true".data else "false".data
       | .number n => num_to_string n
       | .string s => s
       | .node _ => [])

/-- The string comparison at the heart of `Contains` from src/functions.rs
(lines 202-225), applied to the two argument string-values:
an empty first string yields `false` before the empty-second-string arm is
reached; otherwise an empty second string yields `true`; otherwise Rust's
`str::contains` (substring) decides. -/
def contains_function (left_value right_value : List Char) : Bool :=
  if left_value.isEmpty then false
  else if right_value.isEmpty then true
  else decide (right_value <:+: left_value)

/-! ### Expressions and the result iterator (src/expressions.rs, src/factory.rs) -/

/-- The expression forms embedded here: `Literal` and `Addition` from
src/expressions.rs (enough to exercise evaluation and its error path). -/
inductive Expr where
  | literal (v : Value)
  | addition (l r : Expr)

/-- `Expression::next_eval` for the embedded forms.  `Literal` always yields
its value (src/expressions.rs 346-350).  `Addition` (src/expressions.rs
81-90) runs the `res_opt_def_NAN!` macro on each operand — an error
propagates, an absent value short-circuits to `Number(NaN)` — then adds the
operands' `Value::number()` coercions, whose failures also propagate. -/
def next_eval : Expr → Except Error (Option Value)
  | .literal v => .ok (some v)
  | .addition l r => do
      match ← next_eval l with
      | none => pure (some (.number .nan))
      | some left_value =>
          match ← next_eval r with
          | none => pure (some (.number .nan))
          | some right_value => do
              let ln ← left_value.numberValue
              let rn ← right_value.numberValue
              pure (some (.number (ln.add rn)))

/-- `impl Iterator for ProduceIter` from src/factory.rs (lines 30-36):
`self.expr.next_eval(&self.eval).ok().flatten()` — the `Result` is dropped
with `.ok()`, so an evaluation error becomes `None` (end of sequence). -/
def produce_iter_next (expr : Expr) : Option Value :=
  match next_eval expr with
  | .ok v => v
  | .error _ => none

/-- The decision inside `Predicate::matches_eval` (src/expressions.rs
522-534), applied to the value the predicate expression evaluated to:
`Value::Number(v) => eval.position == v as usize`, otherwise
`value.is_something()`. -/
def predicate_matches (position : Nat) (value : Value) : Bool :=
  match value with
  | .number v => position == v.as_usize
  | _ => value.is_something

/-- The boolean-coercion column of the spec's §4.7 table, written from the
spec's words (for comparison with the code's coercions): Number — 0 and
NaN → false, else true; String — empty → false, else true; Node — always
true; Boolean — identity. -/
def spec_boolean_coercion : Value → Bool
  | .boolean b => b
  | .number .nan => false
  | .number (.num q) => !(q == 0)
  | .string s => !s.isEmpty
  | .node _ => true

/-! ### Path evaluation (src/expressions.rs `Path` / `Step` / `Predicate`)

The element tree a path walks over.  Node identities are numbers; a
document lists its node ids in document (pre-order) order together with
each node's ordered children. -/

/-- A document tree in flat form: `order` is every node id in document
order (the root first), `kidsOf` maps a node id to its ordered children. -/
structure Dom where
  order : List Nat
  kidsOf : List (Nat × List Nat)

/-- Ids of the ordered children of node `n` (empty if absent). -/
def childrenOf (d : Dom) (n : Nat) : List Nat :=
  ((d.kidsOf.find? (fun p => p.1 == n)).map Prod.snd).getD []

/-- Id of the parent of node `n`. -/
def parentOf (d : Dom) (n : Nat) : Option Nat :=
  (d.kidsOf.find? (fun p => p.2.contains n)).map Prod.fst

/-- Proper descendants of a node, pre-order, fuel-bounded (the node count
bounds the depth). -/
def descendantsFrom (d : Dom) : Nat → Nat → List Nat
  | 0, _ => []
  | fuel + 1, n =>
      (childrenOf d n).foldr (fun c acc => (c :: descendantsFrom d fuel c) ++ acc) []

/-- Proper descendants of node `n`, in document order. -/
def descendantsOf (d : Dom) (n : Nat) : List Nat :=
  descendantsFrom d d.order.length n

/-- Proper ancestors of a node, nearest first, fuel-bounded. -/
def ancestorsFrom (d : Dom) : Nat → Nat → List Nat
  | 0, _ => []
  | fuel + 1, n =>
      match parentOf d n with
      | some p => p :: ancestorsFrom d fuel p
      | none => []

/-- Proper ancestors of node `n`, nearest first. -/
def ancestorsOf (d : Dom) (n : Nat) : List Nat :=
  ancestorsFrom d d.order.length n

/-- Document order of all ids. -/
def docOrder (d : Dom) : List Nat := d.order

/-- Modelled from the spec: `Evaluation::find_nodes` — the axis walker the
`Step::evaluate` of src/expressions.rs calls — is not present under src/
(src/context.rs belongs to a different revision that has no
`Evaluation::find_nodes`).  This follows §4.4's axis table: each axis
produces its nodes (document order; reverse axes in reverse document
order), every candidate filtered through the node test.  The element tree
carries no attributes or namespaces, so those axes are empty here. -/
def find_nodes (d : Dom) (axis : AxisName) (test : Nat → Bool) (ctx : Nat) :
    List Nat :=
  let raw : List Nat :=
    match axis with
    | .selfAxis => [ctx]
    | .child => childrenOf d ctx
    | .parent => (parentOf d ctx).toList
    | .descendant => descendantsOf d ctx
    | .descendantOrSelf => ctx :: descendantsOf d ctx
    | .ancestor => ancestorsOf d ctx
    | .ancestorOrSelf => ctx :: ancestorsOf d ctx
    | .followingSibling =>
        match parentOf d ctx with
        | some p => (childrenOf d p).dropWhile (fun i => i ≠ ctx) |>.drop 1
        | none => []
    | .precedingSibling =>
        match parentOf d ctx with
        | some p => ((childrenOf d p).takeWhile (fun i => i ≠ ctx)).reverse
        | none => []
    | .following =>
        ((docOrder d).dropWhile (fun i => i ≠ ctx)).drop 1
          |>.filter (fun i => !(descendantsOf d ctx).contains i)
    | .preceding =>
        (((docOrder d).takeWhile (fun i => i ≠ ctx)).filter
          (fun i => !(ancestorsOf d ctx).contains i)).reverse
    | .attribute => []
    | .namespaceAxis => []
  raw.filter test

/-- A predicate expression, by what its `next_eval` yields on a candidate:
arguments are the context node, position and size. -/
def PredExpr : Type := Nat → Nat → Nat → Except Error (Option Value)

/-- `Predicate::matches_eval` from src/expressions.rs (522-534): evaluate the
predicate expression; `None` stays `None`; otherwise decide by
`predicate_matches`. -/
def matches_eval (pred : PredExpr) (node position size : Nat) :
    Except Error (Option Bool) := do
  match ← pred node position size with
  | none => pure none
  | some value => pure (some (predicate_matches position value))

/-- The enumeration loop of `Predicate::select` (src/expressions.rs 500-520):
position is the 1-based index in the incoming node list, size its length;
a node is kept exactly on `Some(true)`. -/
def select_go (pred : PredExpr) (node_count : Nat) :
    List Nat → Nat → Except Error (List Nat)
  | [], _ => .ok []
  | node :: rest, index => do
      let m ← matches_eval pred node (index + 1) node_count
      let tail ← select_go pred node_count rest (index + 1)
      pure (if m = some true then node :: tail else tail)

/-- `Predicate::select` from src/expressions.rs. -/
def predicate_select (pred : PredExpr) (nodes : List Nat) :
    Except Error (List Nat) :=
  select_go pred nodes.length nodes 0

/-- A location step: axis, node test, predicates (src/expressions.rs `Step`). -/
structure PStep where
  axis : AxisName
  test : Nat → Bool
  predicates : List PredExpr

/-- `Step::evaluate` from src/expressions.rs (467-493): for each starting
node, walk the axis, run the predicate chain, and `extend` the accumulator
`unique` — which, despite its name, appends without deduplication. -/
def step_evaluate (d : Dom) (s : PStep) (starting : List Nat) :
    Except Error (List Nat) :=
  starting.foldlM
    (fun unique node => do
      let nodes := find_nodes d s.axis s.test node
      let nodes ← s.predicates.foldlM (fun ns p => predicate_select p ns) nodes
      pure (unique ++ nodes))
    []

/-- `Path::next_eval` from src/expressions.rs (393-443), summed over a whole
evaluation: the start node is fed through the steps in order; the final
node list is reversed into `found_cache` and then popped one node per
call, so the iterator yields exactly this list, front to back. -/
def path_eval (d : Dom) (start : Nat) (steps : List PStep) :
    Except Error (List Nat) :=
  steps.foldlM (fun nodes s => step_evaluate d s nodes) [start]

/-- The per-token abbreviation expansion as the spec states it (for
comparison with `expand_abbreviation`). -/
def spec_expansion : ExprToken → List ExprToken
  | .atSign => [.axis .attribute]
  | .operator .doubleForwardSlash =>
      [.operator .forwardSlash, .axis .descendantOrSelf,
       .nodeType .node, .operator .forwardSlash]
  | .period => [.axis .selfAxis, .nodeType .node]
  | .parentNode => [.axis .parent, .nodeType .node]
  | t => [t]

/-! ### Concrete documents and expressions used by the theorems -/

/-- A three-node document: root 0 with two childless element children 1, 2
(the tree of `<r><a/><b/></r>`). -/
def exDoc : Dom := ⟨[0, 1, 2], [(0, [1, 2])]⟩

/-- The steps of the path `child::node()/parent::node()` (the query `*/..`
up to the node test): a child step then a parent step, `node()` tests,
no predicates. -/
def exSteps : List PStep :=
  [⟨.child, fun _ => true, []⟩, ⟨.parent, fun _ => true, []⟩]

/-- An expression whose evaluation fails: `"a" + "b"` — `Value::number()`
rejects a `String`, so `Addition::next_eval` returns
`Err(InvalidValue(Number))`. -/
def err_expr : Expr :=
  .addition (.literal (.string "a".data)) (.literal (.string "b".data))

/-- The two-character input `""` (an empty string literal). -/
def emptyLiteralInput : List Char := [dquote, dquote]

/-! ### Theorems for the claims -/

/-- C1: the claim says every Path evaluation yields each node at most once
(and in document order).  On the document `<r><a/><b/></r>` the path
`child::node()/parent::node()` yields the root twice: `Step::evaluate`
extends its accumulator without deduplication, so both children map to the
same parent and the output `[0, 0]` contains node 0 twice. -/
theorem c1_path_yields_duplicate_node :
    path_eval exDoc 0 exSteps = .ok [0, 0] ∧ ¬ ([0, 0] : List Nat).Nodup := by
  exact ⟨rfl, by decide⟩

/-- C2, counterexample: on the failing expression `"a" + "b"` the evaluator
returns `Err(InvalidValue(Number))`, yet the result iterator's `next()`
(`.ok().flatten()` in src/factory.rs) returns `None` — the error is turned
into end-of-sequence instead of being returned to the caller. -/
theorem c2_error_turned_into_end_of_sequence :
    next_eval err_expr = .error (Error.invalidValue ValueError.number) ∧
    produce_iter_next err_expr = none := by
  exact ⟨rfl, rfl⟩

/-- C2, amended: whenever evaluation of the next value fails with an error,
`ProduceIter::next` yields `None` (end of sequence); the error is dropped
by `.ok()` and is never surfaced through the iterator. -/
theorem c2_next_none_on_error (e : Expr) (h : ∃ err, next_eval e = .error err) :
    produce_iter_next e = none := by
  obtain ⟨err, herr⟩ := h
  simp [produce_iter_next, herr]

/-- C2, witness for the amended theorem at the concrete failing expression. -/
theorem c2_next_none_on_error_witness : produce_iter_next err_expr = none :=
  c2_next_none_on_error err_expr ⟨Error.invalidValue ValueError.number, rfl⟩

/-- C3, counterexample: the claim says `contains(s, t)` is true whenever `t`
is empty, for every `s` including the empty one; but the source tests the
first argument for emptiness first, so `contains("", "")` is `false`. -/
theorem c3_contains_empty_empty_false :
    ¬ (contains_function [] [] = true) := by decide

/-- C3, amended: `contains(s, t)` returns true iff `s` is nonempty and `t`
occurs as a substring of `s`; in particular for an empty first argument the
result is false for every `t`, even the empty one, and an empty second
argument is contained in every nonempty `s`. -/
theorem c3_contains_amended (s t : List Char) :
    contains_function s t = true ↔ s ≠ [] ∧ t <:+: s := by
  rcases s with _ | ⟨c, cs⟩
  · simp [contains_function]
  · rcases t with _ | ⟨d, ds⟩
    · simp [contains_function]
    · simp [contains_function, List.isEmpty]

/-- C4: for a predicate evaluating to a Number `n` on a candidate at context
position `p` (positions are 1-based: `Predicate::select` sets
`position = index + 1`), the candidate passes iff `p = ⌊n⌋`; for any other
value it passes iff the value coerces to Boolean true per the §4.7 table.
The source compares `position == v as usize`; for `p ≥ 1` the saturating
cast agrees with the floor (negative and NaN numbers match no position). -/
theorem c4_predicate_semantics (position : Nat) (hpos : 1 ≤ position)
    (value : Value) :
    predicate_matches position value = true ↔
      (match value with
       | .number n => ∃ q : ℚ, n = XNum.num q ∧ (position : ℤ) = ⌊q⌋
       | _ => spec_boolean_coercion value = true) := by
  rcases value with b | n | s | nd
  · simp [predicate_matches, Value.is_something, spec_boolean_coercion]
  · rcases n with _ | q
    · simp [predicate_matches, XNum.as_usize]
      omega
    · simp only [predicate_matches, XNum.as_usize, beq_iff_eq]
      constructor
      · rintro h
        refine ⟨q, rfl, ?_⟩
        omega
      · rintro ⟨q', hq, h⟩
        cases hq
        omega
  · simp [predicate_matches, Value.is_something, spec_boolean_coercion,
      List.isEmpty_iff]
  · simp [predicate_matches, Value.is_something, spec_boolean_coercion]

/-- C4, witness: position 2 against the Number 5/2 (⌊5/2⌋ = 2). -/
theorem c4_predicate_semantics_witness :
    predicate_matches 2 (Value.number (XNum.num (5 / 2))) = true ↔
      ∃ q : ℚ, XNum.num (5 / 2) = XNum.num q ∧ ((2 : Nat) : ℤ) = ⌊q⌋ :=
  c4_predicate_semantics 2 (by decide) (Value.number (XNum.num (5 / 2)))

/-- C5, counterexample: the §4.7 table says the Number 0 coerces to Boolean
false, but `Value::is_something` — the code's truthiness coercion — only
tests for NaN, so 0 coerces to true. -/
theorem c5_zero_number_coerces_true :
    (Value.number (XNum.num 0)).is_something = true ∧
    spec_boolean_coercion (Value.number (XNum.num 0)) = false := by decide

/-- C5, amended: under `Value::is_something` a Number coerces to false iff it
is NaN (0 coerces to true); a String coerces to false iff it is empty; a
Node always coerces to true. -/
theorem c5_coercion_amended (v : Value) :
    v.is_something = true ↔
      (match v with
       | .boolean b => b = true
       | .number n => n ≠ .nan
       | .string s => s ≠ []
       | .node _ => True) := by
  rcases v with b | n | s | nd <;>
    simp [Value.is_something, List.isEmpty_iff]

/-- C6, counterexample: the claim says coercing a Boolean to a String yields
"true"/"false" and never the empty string, but `Value::convert_to_string`
maps every Boolean to `String::new()` — the empty string. -/
theorem c6_boolean_converts_to_empty_string :
    convert_to_string (Value.boolean true) = .ok [] ∧
    ([] : List Char) ≠ "true".data := by
  exact ⟨rfl, by decide⟩

/-- C6, amended: the `string()` library function maps Boolean true/false to
"true"/"false", but `Value::convert_to_string` (used e.g. for
concatenating values) maps every Boolean to the empty string. -/
theorem c6_boolean_to_string_amended (b : Bool) :
    convert_to_string (Value.boolean b) = .ok [] ∧
    to_string_function (Value.boolean b) =
      .ok (if b then "true".data else "false".data) := by
  cases b <;> exact ⟨rfl, rfl⟩

/-- Pointwise form of `expand_abbreviation`: pushing one token appends its
expansion. -/
theorem expand_abbreviation_eq (acc : List ExprToken) (t : ExprToken) :
    expand_abbreviation acc t = acc ++ spec_expansion t := by
  cases t <;> first
    | rfl
    | (rename_i o; cases o <;> rfl)

/-- C7: draining any lexer token sequence into the parser's buffer expands
each abbreviation token exactly as the spec states — `@` to the attribute
axis; `//` to `/`, descendant-or-self, `node()`, `/`; `.` to self plus
`node()`; `..` to parent plus `node()` — and passes every other token
through unchanged. -/
theorem c7_abbreviation_expansion (tokens : List ExprToken) :
    drain_tokens tokens = tokens.flatMap spec_expansion := by
  suffices h : ∀ acc, tokens.foldl expand_abbreviation acc =
      acc ++ tokens.flatMap spec_expansion by
    simpa using h []
  induction tokens with
  | nil => intro acc; simp
  | cons t ts ih =>
      intro acc
      simp [List.foldl_cons, expand_abbreviation_eq, ih, List.flatMap_cons]

/-- C8, counterexample: the claim says two node references are equal iff they
denote the same node of the same document, but `impl PartialEq for Node`
compares any two `Root` references equal — here the roots of two distinct
documents. -/
theorem c8_roots_of_distinct_documents_equal :
    node_eq (RNode.root 0) (RNode.root 1) = true ∧
    RNode.root 0 ≠ RNode.root 1 := by decide

/-- C8, amended: `Node` equality is pointer identity of `inner_weak` between
two non-Root references — which makes an Attribute compare by its parent
element's pointer — while any two Root references compare equal regardless
of their documents. -/
theorem c8_node_eq_amended (a b : RNode) :
    node_eq a b = true ↔
      ((a.is_root = true ∧ b.is_root = true) ∨
       (a.is_root = false ∧ b.is_root = false ∧ a.inner_weak = b.inner_weak)) := by
  cases a <;> cases b <;>
    simp [node_eq, RNode.is_root, RNode.inner_weak]

/-- C9: the claim allows the literal content to be empty, and the source's
own comment (`"[^"]*" | '[^']*'`) documents the empty literal as valid; but
the `end_pos - 1 != 1` guard in `Tokenizer::parse_literal` rejects it, so
tokenizing the two-character input `""` falls through every parser and
produces `Err(Error::Token)` instead of `Literal("")`.  (A nonempty
literal is produced correctly, and an unterminated literal correctly fails
with the Token error.) -/
theorem c9_empty_literal_rejected :
    parse_literal emptyLiteralInput = none ∧
    Tokenizer.next_token ⟨emptyLiteralInput, 0⟩ =
      some (.error Error.token, ⟨emptyLiteralInput, 2⟩) ∧
    Tokenizer.next_token ⟨[dquote, 'a', dquote], 0⟩ =
      some (.ok (.literal ['a']), ⟨[dquote, 'a', dquote], 3⟩) ∧
    Tokenizer.next_token ⟨[dquote, 'a'], 0⟩ =
      some (.error Error.token, ⟨[dquote, 'a'], 2⟩) := by
  exact ⟨rfl, rfl, rfl, rfl⟩

/-- C10: `Tokenizer::next_token` is not total on inputs whose remaining text
is all spaces: on the one-character query `" "` the tokenizer is not
finished (`is_finished` is false), yet the leading-whitespace loop indexes
the byte slice out of bounds — modelled by `none`, the panic — instead of
returning a token or an error. -/
theorem c10_trailing_space_panics :
    Tokenizer.is_finished ⟨[' '], 0⟩ = false ∧
    Tokenizer.next_token ⟨[' '], 0⟩ = none ∧
    Tokenizer.iter_next ⟨[' '], 0⟩ = none := by
  exact ⟨rfl, rfl, rfl⟩

end RustXpath
